import Mathlib

/-!
Verification development for the `parse-swift-adapter-openstack` client library.

Shallow embedding of the three core components of the repository:

* `http.ts` — the resilient transport (`fetchWithRetry`, `mayRetryStatus`,
  `backoff`) as a retry loop over an abstract sequence of attempt outcomes;
* `SwiftAuthenticator.ts` — the single-flight token manager as an explicit
  state machine over the authenticator's mutable fields
  (`current`, `state`, `inflight`) plus bookkeeping counters;
* `SwiftAdapter.ts` — header construction (ETag / conditional headers),
  MD5 content hashing, the one-shot re-authentication wrapper
  `authFetchWithRetry`, and the terminal-status classification of the
  create / delete operations.

Machine integers are modelled as `Nat` with explicit `% 2^32` where the MD5
core overflows; the floating-point backoff computation is modelled over `ℚ`
with the `Math.random()*2-1` draw passed as an explicit parameter `u`.
-/

/-! ### Retry transport (`src/http.ts`) -/

/-- Merged (`Required`) retry policy, mirroring `RetryPolicy` of `http.ts`.
Delays are rationals because the source computes them in floating point;
`forceRetryMethods` is the override map as an association list. -/
structure RetryCfg where
  maxRetries : Nat
  baseDelayMs : ℚ
  maxDelayMs : ℚ
  jitterRatio : ℚ
  attemptTimeoutMs : ℚ
  retryOnStatus : List Nat
  retryOnNetworkErrors : Bool
  idempotentMethods : List String
  forceRetryMethods : List (String × List Nat)
deriving DecidableEq

/-- `defaultRetryPolicy` of `http.ts` (lines 25–35). -/
def defaultRetryPolicy : RetryCfg :=
  { maxRetries := 4
    baseDelayMs := 200
    maxDelayMs := 4000
    jitterRatio := 1/5
    attemptTimeoutMs := 8000
    retryOnStatus := [408, 425, 429, 500, 502, 503, 504]
    retryOnNetworkErrors := true
    idempotentMethods := ["GET", "HEAD", "DELETE"]
    forceRetryMethods := [] }

/-- `cfg.forceRetryMethods[method]` — association-list lookup of the
forced-retry override entry for a method. -/
def lookupForce (m : List (String × List Nat)) (method : String) : Option (List Nat) :=
  (m.find? (fun p => p.1 = method)).map (fun p => p.2)

/-- `mayRetryStatus` closure of `fetchWithRetry` (`http.ts` lines 48–55):
a status is retryable iff it is in `retryOnStatus` and either the method is
idempotent or the method's override entry lists the status. -/
def mayRetryStatus (cfg : RetryCfg) (method : String) (status : Nat) : Bool :=
  if cfg.retryOnStatus.contains status then
    if cfg.idempotentMethods.contains method then true
    else
      match lookupForce cfg.forceRetryMethods method with
      | some forced => forced.contains status
      | none => false
  else false

/-- Outcome of one `_fetch` attempt: a response with a status, or a thrown
error whose `name === 'AbortError'` flag is recorded (the per-attempt
timeout fires `controller.abort()`, making fetch throw an `AbortError`). -/
inductive AttemptOutcome where
  | response (status : Nat)
  | failure (isAbort : Bool)
deriving DecidableEq

/-- Result of `fetchWithRetry`: the returned terminal response, or the
propagated error; `attemptsUsed` counts how many `_fetch` attempts ran. -/
inductive FetchResult where
  | returned (status : Nat) (attemptsUsed : Nat)
  | threw (isAbort : Bool) (attemptsUsed : Nat)
deriving DecidableEq

/-- The retry loop of `fetchWithRetry` (`http.ts` lines 68–104), with the
i-th attempt's outcome supplied by the oracle `f`.  `fuel` bounds the
recursion; the loop body exactly mirrors the source: a non-retryable status
is returned at once, a retryable one is retried while attempts remain,
a thrown error is retried only when `retryOnNetworkErrors && !isAbort`
holds and attempts remain. -/
def runFetch (cfg : RetryCfg) (method : String) (f : Nat → AttemptOutcome) :
    Nat → Nat → FetchResult
  | _, 0 => FetchResult.threw false 0
  | attempt, fuel + 1 =>
    match f attempt with
    | AttemptOutcome.response s =>
      if mayRetryStatus cfg method s = false then FetchResult.returned s (attempt + 1)
      else if attempt < cfg.maxRetries then runFetch cfg method f (attempt + 1) fuel
      else FetchResult.returned s (attempt + 1)
    | AttemptOutcome.failure ab =>
      let isNetErr := cfg.retryOnNetworkErrors && !ab
      if isNetErr = false ∨ cfg.maxRetries ≤ attempt then FetchResult.threw ab (attempt + 1)
      else runFetch cfg method f (attempt + 1) fuel

/-- `fetchWithRetry` of `http.ts`: run the loop from attempt 0; the loop
body performs at most `maxRetries + 1` attempts. -/
def fetchWithRetry (cfg : RetryCfg) (method : String) (f : Nat → AttemptOutcome) :
    FetchResult :=
  runFetch cfg method f 0 (cfg.maxRetries + 1)

/-- The unjittered exponential delay `Math.min(maxDelayMs, baseDelayMs * 2^attempt)`
(`http.ts` line 61). -/
def expDelay (cfg : RetryCfg) (attempt : Nat) : ℚ :=
  min cfg.maxDelayMs (cfg.baseDelayMs * 2 ^ attempt)

/-- `backoff` of `http.ts` (lines 60–64): the jitter draw
`Math.random() * 2 - 1 ∈ [-1, 1)` is the parameter `u`;
`Math.round` is `round`, `Math.max(0, ·)` the outer `max`. -/
def backoff (cfg : RetryCfg) (attempt : Nat) (u : ℚ) : ℤ :=
  max 0 (round (expDelay cfg attempt + expDelay cfg attempt * cfg.jitterRatio * u))

/-! ### Token manager (`src/SwiftAuthenticator.ts`) -/

/-- `AuthState` enum of `SwiftAuthenticator.ts` (lines 22–27). -/
inductive AuthState where
  | unauthenticated
  | authenticating
  | authenticated
  | failed
deriving DecidableEq

/-- `TokenState` of `SwiftAuthenticator.ts`: a token together with the
skew-adjusted absolute expiry instant (`Date` modelled as milliseconds). -/
structure TokenState where
  token : String
  expiresAt : Nat
deriving DecidableEq

/-- The mutable fields of a `SwiftAuthenticator` (`current`, `state`,
`inflight`) plus bookkeeping: `nextOp` mints identities for successive
`RefreshOperation`s (promises), and `postCount` counts authentication
exchanges (POSTs to the auth endpoint) issued so far. -/
structure AuthSt where
  current : Option TokenState
  state : AuthState
  inflight : Option Nat
  nextOp : Nat
  postCount : Nat
deriving DecidableEq

/-- `isTokenValid` (`SwiftAuthenticator.ts` lines 74–77):
`Date.now() < current.expiresAt`. -/
def isTokenValid (s : AuthSt) (now : Nat) : Bool :=
  match s.current with
  | none => false
  | some t => decide (now < t.expiresAt)

/-- Token of the cached `TokenState` (read only under `isTokenValid`). -/
def currentToken (s : AuthSt) : String :=
  match s.current with
  | some t => t.token
  | none => ""

/-- What the synchronous prefix of one `getToken()` call observes:
the still-valid cached token, or the identity of the refresh operation the
caller ends up awaiting. -/
inductive GetOutcome where
  | cached (token : String)
  | awaiting (op : Nat)
deriving DecidableEq

/-- Synchronous prefix of `getToken()` (`SwiftAuthenticator.ts` lines 59–64
and 79–99): return the cached token if valid; otherwise join the in-flight
refresh if one exists; otherwise create a fresh `RefreshOperation` —
creating it invokes `refreshToken()`, which issues the POST to the auth
endpoint immediately, so `postCount` increments exactly here. -/
def getTokenSync (s : AuthSt) (now : Nat) : AuthSt × GetOutcome :=
  if isTokenValid s now then (s, GetOutcome.cached (currentToken s))
  else
    match s.inflight with
    | some op => (s, GetOutcome.awaiting op)
    | none =>
      ({ s with
          state := AuthState.authenticating
          inflight := some s.nextOp
          nextOp := s.nextOp + 1
          postCount := s.postCount + 1 },
        GetOutcome.awaiting s.nextOp)

/-- Settlement value of a refresh: success minting a token with its
skew-adjusted expiry, or failure (non-201, missing header, network error). -/
inductive RefreshResult where
  | success (token : String) (expiresAt : Nat)
  | failure
deriving DecidableEq

/-- Settlement of the in-flight refresh: on success `refreshToken` installs
the new `TokenState` (lines 142/149) and the `.then` sets
`state := AUTHENTICATED`; on failure the `.catch` sets `state := FAILED`
and leaves the cache as is; the `.finally` clears `inflight`
(lines 84–96). -/
def settle (s : AuthSt) (r : RefreshResult) : AuthSt :=
  match r with
  | RefreshResult.success tok exp =>
    { s with
        current := some { token := tok, expiresAt := exp }
        state := AuthState.authenticated
        inflight := none }
  | RefreshResult.failure =>
    { s with state := AuthState.failed, inflight := none }

/-- `invalidate()` (`SwiftAuthenticator.ts` lines 67–72): discard the
cached token; downgrade the state flag only from AUTHENTICATED. -/
def invalidate (s : AuthSt) : AuthSt :=
  { s with
      current := none
      state := if s.state = AuthState.authenticated then AuthState.unauthenticated else s.state }

/-- Run the synchronous prefixes of `n` concurrent `getToken()` calls
back-to-back (no settlement in between), collecting each caller's
outcome. -/
def runCalls (s : AuthSt) (now : Nat) : Nat → AuthSt × List GetOutcome
  | 0 => (s, [])
  | n + 1 =>
    let p := getTokenSync s now
    let q := runCalls p.1 now n
    (q.1, p.2 :: q.2)

/-! ### MD5 (`crypto.createHash('md5')` as used by `computeMD5Hex`) -/

/-- 32-bit modular addition. -/
def add32 (x y : Nat) : Nat := (x + y) % 4294967296

/-- 32-bit left rotation (inputs are < 2^32). -/
def rotl32 (x n : Nat) : Nat :=
  ((x <<< n) ||| (x >>> (32 - n))) % 4294967296

/-- RFC 1321 sine-derived constant table `K`. -/
def md5K : List Nat :=
  [0xd76aa478, 0xe8c7b756, 0x242070db, 0xc1bdceee,
   0xf57c0faf, 0x4787c62a, 0xa8304613, 0xfd469501,
   0x698098d8, 0x8b44f7af, 0xffff5bb1, 0x895cd7be,
   0x6b901122, 0xfd987193, 0xa679438e, 0x49b40821,
   0xf61e2562, 0xc040b340, 0x265e5a51, 0xe9b6c7aa,
   0xd62f105d, 0x02441453, 0xd8a1e681, 0xe7d3fbc8,
   0x21e1cde6, 0xc33707d6, 0xf4d50d87, 0x455a14ed,
   0xa9e3e905, 0xfcefa3f8, 0x676f02d9, 0x8d2a4c8a,
   0xfffa3942, 0x8771f681, 0x6d9d6122, 0xfde5380c,
   0xa4beea44, 0x4bdecfa9, 0xf6bb4b60, 0xbebfbc70,
   0x289b7ec6, 0xeaa127fa, 0xd4ef3085, 0x04881d05,
   0xd9d4d039, 0xe6db99e5, 0x1fa27cf8, 0xc4ac5665,
   0xf4292244, 0x432aff97, 0xab9423a7, 0xfc93a039,
   0x655b59c3, 0x8f0ccc92, 0xffeff47d, 0x85845dd1,
   0x6fa87e4f, 0xfe2ce6e0, 0xa3014314, 0x4e0811a1,
   0xf7537e82, 0xbd3af235, 0x2ad7d2bb, 0xeb86d391]

/-- RFC 1321 per-round left-rotation amounts. -/
def md5S : List Nat :=
  [7, 12, 17, 22, 7, 12, 17, 22, 7, 12, 17, 22, 7, 12, 17, 22,
   5, 9, 14, 20, 5, 9, 14, 20, 5, 9, 14, 20, 5, 9, 14, 20,
   4, 11, 16, 23, 4, 11, 16, 23, 4, 11, 16, 23, 4, 11, 16, 23,
   6, 10, 15, 21, 6, 10, 15, 21, 6, 10, 15, 21, 6, 10, 15, 21]

/-- Message-word schedule index for round `i`. -/
def md5Idx (i : Nat) : Nat :=
  if i < 16 then i
  else if i < 32 then (5 * i + 1) % 16
  else if i < 48 then (3 * i + 5) % 16
  else (7 * i) % 16

/-- The round-dependent mixing function F/G/H/I of RFC 1321;
bitwise NOT on 32 bits is XOR with `0xffffffff`. -/
def md5F (i b c d : Nat) : Nat :=
  if i < 16 then (b &&& c) ||| ((b ^^^ 4294967295) &&& d)
  else if i < 32 then (d &&& b) ||| ((d ^^^ 4294967295) &&& c)
  else if i < 48 then b ^^^ c ^^^ d
  else c ^^^ (b ||| (d ^^^ 4294967295))

/-- One of the 64 MD5 rounds on the state quadruple `(a, b, c, d)`. -/
def md5Round (M : List Nat) (st : Nat × Nat × Nat × Nat) (i : Nat) :
    Nat × Nat × Nat × Nat :=
  match st with
  | (a, b, c, d) =>
    let f := md5F i b c d
    let t := add32 a (add32 f (add32 (md5K.getD i 0) (M.getD (md5Idx i) 0)))
    (d, add32 b (rotl32 t (md5S.getD i 0)), b, c)

/-- Compress one 16-word block into the running state. -/
def md5Block (M : List Nat) (st : Nat × Nat × Nat × Nat) :
    Nat × Nat × Nat × Nat :=
  let r := (List.range 64).foldl (md5Round M) st
  (add32 st.1 r.1, add32 st.2.1 r.2.1, add32 st.2.2.1 r.2.2.1, add32 st.2.2.2 r.2.2.2)

/-- Fold the compression function over the 16-word blocks of the padded
message (the padded byte length is always a multiple of 64, so the word
list splits exactly into blocks of 16). -/
def md5Blocks : List Nat → Nat × Nat × Nat × Nat → Nat × Nat × Nat × Nat
  | w0 :: w1 :: w2 :: w3 :: w4 :: w5 :: w6 :: w7 ::
    w8 :: w9 :: w10 :: w11 :: w12 :: w13 :: w14 :: w15 :: rest, st =>
    md5Blocks rest
      (md5Block [w0, w1, w2, w3, w4, w5, w6, w7, w8, w9, w10, w11, w12, w13, w14, w15] st)
  | _, st => st

/-- Little-endian assembly of bytes into 32-bit words. -/
def toWords : List Nat → List Nat
  | b0 :: b1 :: b2 :: b3 :: rest =>
    (b0 + 256 * b1 + 65536 * b2 + 16777216 * b3) :: toWords rest
  | _ => []

/-- The 64-bit little-endian encoding of the message bit length. -/
def md5LenBytes (len : Nat) : List Nat :=
  (List.range 8).map (fun i => len * 8 / 256 ^ i % 256)

/-- RFC 1321 padding: `0x80`, zeros to 56 mod 64, then the bit length. -/
def md5Pad (msg : List Nat) : List Nat :=
  let len := msg.length
  let k := (120 - (len + 1) % 64) % 64
  msg ++ [128] ++ List.replicate k 0 ++ md5LenBytes len

/-- MD5 digest of a byte sequence, as 16 bytes. -/
def md5Bytes (msg : List Nat) : List Nat :=
  let st := md5Blocks (toWords (md5Pad msg))
    (0x67452301, 0xefcdab89, 0x98badcfe, 0x10325476)
  let le := fun (w : Nat) => [w % 256, w / 256 % 256, w / 65536 % 256, w / 16777216 % 256]
  le st.1 ++ le st.2.1 ++ le st.2.2.1 ++ le st.2.2.2

/-- Lowercase hex digit. -/
def hexDigit (n : Nat) : Char :=
  if n < 10 then Char.ofNat (48 + n) else Char.ofNat (87 + n)

/-- Lowercase hex rendering of a byte sequence (`digest('hex')`). -/
def bytesHex (bs : List Nat) : String :=
  String.mk (bs.foldr (fun b acc => hexDigit (b / 16) :: hexDigit (b % 16) :: acc) [])

/-- `computeMD5Hex` of `SwiftAdapter.ts` (lines 384–389) on an explicit
byte sequence (the UTF-8 bytes of a string payload, or the Buffer). -/
def computeMD5Hex (data : List Nat) : String :=
  bytesHex (md5Bytes data)

/-- UTF-8 bytes of an ASCII string payload (code points below 128 encode
as themselves). -/
def asciiBytes (s : String) : List Nat :=
  s.data.map (fun c => c.toNat)

/-! ### Object operations (`src/SwiftAdapter.ts`) -/

/-- `CreateFileOptions` of `SwiftAdapter.ts` (lines 47–63); `conditional`
is `true` (`Sum.inl ()`) or an ETag string (`Sum.inr tag`). -/
structure CreateFileOptions where
  contentType : Option String := none
  headers : List (String × String) := []
  conditional : Option (Unit ⊕ String) := none
  etagHex : Option String := none

/-- `DeleteFileOptions` of `SwiftAdapter.ts` (lines 66–71). -/
structure DeleteFileOptions where
  ifMatchETag : Option String := none
  ignoreNotFound : Option Bool := none

/-- Header-map lookup with JavaScript object-spread semantics: a later
entry for the same key overrides an earlier one, so the *last* occurrence
wins. -/
def headerValue (hs : List (String × String)) (k : String) : Option String :=
  (hs.reverse.find? (fun p => p.1 = k)).map (fun p => p.2)

/-- Request headers built by `createFile` (`SwiftAdapter.ts` lines
137–148): the ETag is `options.etagHex ?? computeMD5Hex(data)`; then
Content-Type, the caller's extra headers, and finally the conditional
header (`If-None-Match: *` for create-only, `If-Match: tag` for
update-if-match), which is assigned after the spreads and therefore wins
any conflict. -/
def createFileHeaders (data : List Nat) (o : CreateFileOptions) :
    List (String × String) :=
  let etag := o.etagHex.getD (computeMD5Hex data)
  [("ETag", etag)]
    ++ (match o.contentType with
        | some ct => [("Content-Type", ct)]
        | none => [])
    ++ o.headers
    ++ (match o.conditional with
        | some (Sum.inl _) => [("If-None-Match", "*")]
        | some (Sum.inr t) => [("If-Match", t)]
        | none => [])

/-- `ObjectMeta` of `SwiftAdapter.ts` (lines 74–79). -/
structure ObjectMeta where
  etag : Option String
  lastModified : Option String
  contentType : Option String
  contentLength : Option Nat
deriving DecidableEq

/-- Decimal string parse modelling `Number(lenStr)` on a digit string. -/
def parseDec (s : String) : Option Nat :=
  s.data.foldl
    (fun acc c =>
      acc.bind (fun n =>
        if 48 ≤ c.toNat ∧ c.toNat ≤ 57 then some (n * 10 + (c.toNat - 48)) else none))
    (some 0)

/-- `extractMeta` of `SwiftAdapter.ts` (lines 410–418): read the four
metadata headers from the terminal response. -/
def extractMeta (hs : List (String × String)) : ObjectMeta :=
  { etag := headerValue hs "etag"
    lastModified := headerValue hs "last-modified"
    contentType := headerValue hs "content-type"
    contentLength := (headerValue hs "content-length").bind parseDec }

/-- Typed outcome of `createFile` per the terminal status (`SwiftAdapter.ts`
lines 163–175): 201 → success with extracted metadata; 412 → precondition
failed; 422 → integrity (ETag/MD5) mismatch; otherwise a generic failure
carrying the status. -/
inductive PutOutcome where
  | success (meta : ObjectMeta)
  | preconditionFailed (status : Nat)
  | integrityMismatch (status : Nat)
  | unexpected (status : Nat)
deriving DecidableEq

/-- Classification of `createFile`'s terminal response. -/
def createFileResult (status : Nat) (respHeaders : List (String × String)) :
    PutOutcome :=
  if status = 201 then PutOutcome.success (extractMeta respHeaders)
  else if status = 412 then PutOutcome.preconditionFailed status
  else if status = 422 then PutOutcome.integrityMismatch status
  else PutOutcome.unexpected status

/-- Typed outcome of `deleteFile` per the terminal status. -/
inductive DeleteOutcome where
  | success
  | preconditionFailed (status : Nat)
  | unexpected (status : Nat)
deriving DecidableEq

/-- Classification of `deleteFile`'s terminal response (`SwiftAdapter.ts`
lines 202–210): 204 → success; 404 with `ignoreNotFound ?? true` →
success; 412 → precondition failed; otherwise a generic failure. -/
def deleteFileResult (o : DeleteFileOptions) (status : Nat) : DeleteOutcome :=
  if status = 204 then DeleteOutcome.success
  else if o.ignoreNotFound.getD true = true ∧ status = 404 then DeleteOutcome.success
  else if status = 412 then DeleteOutcome.preconditionFailed status
  else DeleteOutcome.unexpected status

/-- One sequential (uncontended) `await getToken()` with the settlement of
any refresh it starts or joins inlined: `mint op` is the token and
skew-adjusted expiry delivered by operation `op`'s settlement. -/
def seqGetToken (s : AuthSt) (now : Nat) (mint : Nat → String × Nat) :
    AuthSt × String :=
  if isTokenValid s now then (s, currentToken s)
  else
    match s.inflight with
    | some op => (settle s (RefreshResult.success (mint op).1 (mint op).2), (mint op).1)
    | none =>
      let s1 := (getTokenSync s now).1
      let t := mint s.nextOp
      (settle s1 (RefreshResult.success t.1 t.2), t.1)

/-- `authFetchWithRetry` of `SwiftAdapter.ts` (lines 333–381): get a token,
issue the exchange; if the terminal status is 401 or 403, invalidate the
token, get a fresh one, and issue the exchange exactly once more,
returning its response whatever it is.  `respond i tok` is the terminal
status of the i-th `fetchWithRetry` exchange carried out with token `tok`;
the returned triple is the final authenticator state, the final status,
and the tokens used by the exchanges in order. -/
def authFetchWithRetry (s : AuthSt) (now : Nat) (mint : Nat → String × Nat)
    (respond : Nat → String → Nat) : AuthSt × Nat × List String :=
  let p1 := seqGetToken s now mint
  let st1 := respond 0 p1.2
  if st1 = 401 ∨ st1 = 403 then
    let s2 := invalidate p1.1
    let p2 := seqGetToken s2 now mint
    (p2.1, respond 1 p2.2, [p1.2, p2.2])
  else (p1.1, st1, [p1.2])

/-! ### Theorems: resilient transport -/

/-- The retry policy the adapter passes for a PUT with
`allowPutRetry503: true` (`SwiftAdapter.ts` lines 354–356), merged with
the defaults. -/
def swiftPutPolicy : RetryCfg :=
  { defaultRetryPolicy with forceRetryMethods := [("PUT", [503])] }

/-- C2: a status is retried iff it is in the retryable set and the method
is idempotent or has an override entry listing the status; under idempotent
methods GET/HEAD/DELETE and override PUT ↦ [503], a GET returning 503 is
retried `maxRetries` times (returned after `maxRetries + 1` attempts),
a PUT returning 503 is likewise retried, and a PUT returning 500 is
returned after a single attempt. -/
theorem retry_classification :
    (∀ (cfg : RetryCfg) (method : String) (status : Nat),
      mayRetryStatus cfg method status = true ↔
        status ∈ cfg.retryOnStatus ∧
          (method ∈ cfg.idempotentMethods ∨
            ∃ l, lookupForce cfg.forceRetryMethods method = some l ∧ status ∈ l))
    ∧ fetchWithRetry swiftPutPolicy "GET" (fun _ => AttemptOutcome.response 503)
        = FetchResult.returned 503 (swiftPutPolicy.maxRetries + 1)
    ∧ fetchWithRetry swiftPutPolicy "PUT" (fun _ => AttemptOutcome.response 503)
        = FetchResult.returned 503 (swiftPutPolicy.maxRetries + 1)
    ∧ fetchWithRetry swiftPutPolicy "PUT" (fun _ => AttemptOutcome.response 500)
        = FetchResult.returned 500 1 := by
  refine ⟨?_, by decide, by decide, by decide⟩
  intro cfg method status
  simp only [mayRetryStatus]
  by_cases h1 : status ∈ cfg.retryOnStatus
  · have h1' : cfg.retryOnStatus.contains status = true := by simpa using h1
    rw [if_pos h1']
    by_cases h2 : method ∈ cfg.idempotentMethods
    · have h2' : cfg.idempotentMethods.contains method = true := by simpa using h2
      rw [if_pos h2']
      simp [h1, h2]
    · have h2' : ¬ cfg.idempotentMethods.contains method = true := by simpa using h2
      rw [if_neg h2']
      cases hl : lookupForce cfg.forceRetryMethods method with
      | none => simp [h1, h2, hl]
      | some forced => simp [h1, h2, hl]
  · have h1' : ¬ cfg.retryOnStatus.contains status = true := by simpa using h1
    rw [if_neg h1']
    simp [h1]

/-- C3, counterexample: with the default policy (network-error retries
enabled, `maxRetries = 4 > 0` attempts remaining) a per-attempt timeout
abort (`AbortError`) on the first attempt is propagated immediately after
a single attempt — it is *not* classified as a retryable transport
failure, because `isNetErr = retryOnNetworkErrors && !isAbort` excludes
aborts (`http.ts` lines 93–100). -/
theorem attemptTimeout_abort_not_retried :
    fetchWithRetry defaultRetryPolicy "GET" (fun _ => AttemptOutcome.failure true)
        = FetchResult.threw true 1
    ∧ defaultRetryPolicy.retryOnNetworkErrors = true
    ∧ 0 < defaultRetryPolicy.maxRetries := by
  decide

/-- Persistent genuine (non-abort) network failures are retried until the
budget is exhausted and then propagated after `maxRetries + 1` attempts. -/
theorem runFetch_netFail (cfg : RetryCfg) (method : String) (f : Nat → AttemptOutcome)
    (hf : ∀ k, f k = AttemptOutcome.failure false) (hn : cfg.retryOnNetworkErrors = true) :
    ∀ fuel attempt, attempt + fuel = cfg.maxRetries + 1 → 0 < fuel →
      runFetch cfg method f attempt fuel = FetchResult.threw false (cfg.maxRetries + 1) := by
  intro fuel
  induction fuel with
  | zero => intro attempt _ h0; omega
  | succ t ih =>
    intro attempt h _
    rw [runFetch, hf attempt]
    simp only [hn, Bool.not_false, Bool.and_true]
    by_cases hend : cfg.maxRetries ≤ attempt
    · rw [if_pos (Or.inr hend)]
      have : attempt = cfg.maxRetries := by omega
      rw [this]
    · rw [if_neg (by simp [hend])]
      exact ih (attempt + 1) (by omega) (by omega)

/-- C3, amended: an attempt whose per-attempt timeout elapses throws an
`AbortError`, which the transport classifies as non-retryable and
propagates immediately (one attempt, no backoff); only genuine (non-abort)
transport failures are retried while `retryOnNetworkErrors` is enabled and
attempts remain, and such a failure is propagated only once all
`maxRetries + 1` attempts are exhausted. -/
theorem abort_propagates_netfail_retries (cfg : RetryCfg) (method : String)
    (f : Nat → AttemptOutcome) :
    (f 0 = AttemptOutcome.failure true →
      fetchWithRetry cfg method f = FetchResult.threw true 1)
    ∧ ((∀ k, f k = AttemptOutcome.failure false) → cfg.retryOnNetworkErrors = true →
      fetchWithRetry cfg method f = FetchResult.threw false (cfg.maxRetries + 1)) := by
  constructor
  · intro h0
    rw [fetchWithRetry, runFetch, h0]
    simp
  · intro hf hn
    exact runFetch_netFail cfg method f hf hn (cfg.maxRetries + 1) 0 (by omega) (by omega)

/-- Witness for the amended C3 at the default policy: an abort is
propagated after one attempt; a persistent genuine network failure is
propagated only after all five attempts. -/
theorem abort_propagates_netfail_retries_witness :
    fetchWithRetry defaultRetryPolicy "GET" (fun _ => AttemptOutcome.failure true)
        = FetchResult.threw true 1
    ∧ fetchWithRetry defaultRetryPolicy "GET" (fun _ => AttemptOutcome.failure false)
        = FetchResult.threw false 5 :=
  ⟨(abort_propagates_netfail_retries defaultRetryPolicy "GET"
      (fun _ => AttemptOutcome.failure true)).1 rfl,
    (abort_propagates_netfail_retries defaultRetryPolicy "GET"
      (fun _ => AttemptOutcome.failure false)).2 (fun _ => rfl) rfl⟩

/-- A policy exhibiting the rounding overshoot: base and max delay 4ms,
jitter ratio 0.175. -/
def roundingCfg : RetryCfg :=
  { defaultRetryPolicy with baseDelayMs := 4, maxDelayMs := 4, jitterRatio := 7/40 }

/-- C6, counterexample: with `baseDelay = maxDelay = 4`, `jitterRatio =
0.175` and jitter draw `u = 0.99 ∈ [-1, 1)`, the unjittered delay is 4 and
the jitter bound is `4 × 0.175 = 0.7`, yet `Math.round` returns 5 —
exceeding `maxDelay + delay × jitterRatio = 4.7`, so the returned delay is
*not* the unjittered component plus a jitter of magnitude at most
`delay × jitterRatio`. -/
theorem backoff_round_exceeds_bound :
    backoff roundingCfg 0 (99/100) = 5
    ∧ expDelay roundingCfg 0 = 4
    ∧ expDelay roundingCfg 0 ≤ roundingCfg.maxDelayMs
    ∧ ((backoff roundingCfg 0 (99/100) : ℚ) >
        roundingCfg.maxDelayMs + expDelay roundingCfg 0 * roundingCfg.jitterRatio)
    ∧ (-1 ≤ (99:ℚ)/100 ∧ (99:ℚ)/100 < 1) := by
  have he : expDelay roundingCfg 0 = 4 := by
    norm_num [expDelay, roundingCfg, defaultRetryPolicy]
  have h1 : backoff roundingCfg 0 (99/100) = 5 := by
    rw [backoff, he]
    norm_num [roundingCfg, defaultRetryPolicy, round_eq]
  refine ⟨h1, he, ?_, ?_, by norm_num, by norm_num⟩
  · rw [he]; norm_num [roundingCfg, defaultRetryPolicy]
  · rw [h1, he]; norm_num [roundingCfg, defaultRetryPolicy]

/-- C6, amended: for every attempt and policy with nonnegative delays and
jitter ratio, and every jitter draw `u ∈ [-1, 1]`: the unjittered
component `min(maxDelay, baseDelay × 2^attempt)` is non-decreasing across
consecutive attempts; the returned delay differs from the unjittered
component by at most `delay × jitterRatio + 1/2` (the jitter bound plus
the half-unit contributed by `Math.round`); and the returned delay never
exceeds `maxDelay + maxDelay × jitterRatio + 1/2`. -/
theorem backoff_bounds (cfg : RetryCfg) (attempt : Nat) (u : ℚ)
    (hb : 0 ≤ cfg.baseDelayMs) (hm : 0 ≤ cfg.maxDelayMs) (hr : 0 ≤ cfg.jitterRatio)
    (hu1 : -1 ≤ u) (hu2 : u ≤ 1) :
    expDelay cfg attempt ≤ expDelay cfg (attempt + 1)
    ∧ |(backoff cfg attempt u : ℚ) - expDelay cfg attempt|
        ≤ expDelay cfg attempt * cfg.jitterRatio + 1/2
    ∧ (backoff cfg attempt u : ℚ)
        ≤ cfg.maxDelayMs + cfg.maxDelayMs * cfg.jitterRatio + 1/2 := by
  set e := expDelay cfg attempt with hedef
  have he0 : 0 ≤ e := by
    rw [hedef, expDelay]
    exact le_min hm (mul_nonneg hb (pow_nonneg (by norm_num) _))
  have heM : e ≤ cfg.maxDelayMs := min_le_left _ _
  set x := e + e * cfg.jitterRatio * u with hxdef
  have hrnd : |x - (round x : ℚ)| ≤ 1 / 2 := abs_sub_round x
  have hrnd1 : x - (round x : ℚ) ≤ 1 / 2 := (abs_le.mp hrnd).2
  have hrnd2 : -(1 / 2) ≤ x - (round x : ℚ) := (abs_le.mp hrnd).1
  have hjit : |e * cfg.jitterRatio * u| ≤ e * cfg.jitterRatio := by
    rw [abs_mul, abs_of_nonneg (mul_nonneg he0 hr)]
    calc e * cfg.jitterRatio * |u| ≤ e * cfg.jitterRatio * 1 :=
          mul_le_mul_of_nonneg_left (abs_le.mpr ⟨hu1, hu2⟩) (mul_nonneg he0 hr)
      _ = e * cfg.jitterRatio := mul_one _
  have hjit1 : e * cfg.jitterRatio * u ≤ e * cfg.jitterRatio := (abs_le.mp hjit).2
  have hjit2 : -(e * cfg.jitterRatio) ≤ e * cfg.jitterRatio * u := (abs_le.mp hjit).1
  have hback : backoff cfg attempt u = max 0 (round x) := rfl
  refine ⟨?_, ?_, ?_⟩
  · rw [hedef]
    unfold expDelay
    refine min_le_min le_rfl ?_
    have : (2:ℚ) ^ attempt ≤ 2 ^ (attempt + 1) :=
      pow_le_pow_right₀ (by norm_num) (Nat.le_succ _)
    exact mul_le_mul_of_nonneg_left this hb
  · rw [hback]
    rcases le_or_lt 0 (round x) with hnn | hneg
    · rw [max_eq_right hnn]
      rw [abs_le]
      constructor <;> [skip; skip] <;> linarith
    · rw [max_eq_left (le_of_lt hneg)]
      have hc : (round x : ℚ) ≤ -1 := by
        have : round x ≤ -1 := by omega
        exact_mod_cast this
      rw [abs_le]
      push_cast
      constructor <;> linarith
  · rw [hback]
    rcases le_or_lt 0 (round x) with hnn | hneg
    · rw [max_eq_right hnn]
      have hrM : e * cfg.jitterRatio ≤ cfg.maxDelayMs * cfg.jitterRatio :=
        mul_le_mul_of_nonneg_right heM hr
      linarith
    · rw [max_eq_left (le_of_lt hneg)]
      push_cast
      nlinarith

/-- Witness for the amended C6 at the default policy with a zero jitter
draw. -/
theorem backoff_bounds_witness :
    0 ≤ defaultRetryPolicy.baseDelayMs ∧ 0 ≤ defaultRetryPolicy.maxDelayMs
    ∧ 0 ≤ defaultRetryPolicy.jitterRatio ∧ -1 ≤ (0:ℚ) ∧ (0:ℚ) ≤ 1
    ∧ (expDelay defaultRetryPolicy 0 ≤ expDelay defaultRetryPolicy (0 + 1)
      ∧ |(backoff defaultRetryPolicy 0 0 : ℚ) - expDelay defaultRetryPolicy 0|
          ≤ expDelay defaultRetryPolicy 0 * defaultRetryPolicy.jitterRatio + 1/2
      ∧ (backoff defaultRetryPolicy 0 0 : ℚ)
          ≤ defaultRetryPolicy.maxDelayMs
            + defaultRetryPolicy.maxDelayMs * defaultRetryPolicy.jitterRatio + 1/2) :=
  ⟨by norm_num [defaultRetryPolicy], by norm_num [defaultRetryPolicy],
    by norm_num [defaultRetryPolicy], by norm_num, by norm_num,
    backoff_bounds defaultRetryPolicy 0 0 (by norm_num [defaultRetryPolicy])
      (by norm_num [defaultRetryPolicy]) (by norm_num [defaultRetryPolicy])
      (by norm_num) (by norm_num)⟩

/-! ### Theorems: token manager -/

/-- Callers finding a refresh already in flight join it unchanged: no state
change, no additional POST, same awaited operation. -/
theorem runCalls_join (s : AuthSt) (now op : Nat)
    (hv : isTokenValid s now = false) (hi : s.inflight = some op) :
    ∀ n, runCalls s now n = (s, List.replicate n (GetOutcome.awaiting op)) := by
  have hstep : getTokenSync s now = (s, GetOutcome.awaiting op) := by
    simp [getTokenSync, hv, hi]
  intro n
  induction n with
  | zero => rfl
  | succ m ih =>
    rw [runCalls]
    simp [hstep, ih, List.replicate_succ]

/-- C1: starting with no valid cached token and no refresh in flight, a
burst of `n ≥ 1` concurrent `getToken()` calls performs exactly one
authentication exchange (`postCount` rises by one); every caller awaits
the *same* refresh operation (`s.nextOp`), so all receive that operation's
single settlement value — the same token on success or the same error on
failure; and settling the shared refresh clears the in-flight slot, so a
later need triggers a fresh exchange. -/
theorem singleFlight_getToken (s : AuthSt) (now n : Nat)
    (hv : isTokenValid s now = false) (hi : s.inflight = none) (hn : 0 < n) :
    (runCalls s now n).1.postCount = s.postCount + 1
    ∧ (runCalls s now n).2 = List.replicate n (GetOutcome.awaiting s.nextOp)
    ∧ (runCalls s now n).1.inflight = some s.nextOp
    ∧ ∀ r, (settle (runCalls s now n).1 r).inflight = none := by
  obtain ⟨m, rfl⟩ : ∃ m, n = m + 1 := ⟨n - 1, by omega⟩
  have hstep : getTokenSync s now =
      ({ s with
          state := AuthState.authenticating
          inflight := some s.nextOp
          nextOp := s.nextOp + 1
          postCount := s.postCount + 1 }, GetOutcome.awaiting s.nextOp) := by
    simp [getTokenSync, hv, hi]
  have hv1 : isTokenValid
      { s with
          state := AuthState.authenticating
          inflight := some s.nextOp
          nextOp := s.nextOp + 1
          postCount := s.postCount + 1 } now = false := hv
  have hrest := runCalls_join
    { s with
        state := AuthState.authenticating
        inflight := some s.nextOp
        nextOp := s.nextOp + 1
        postCount := s.postCount + 1 } now s.nextOp hv1 rfl m
  rw [runCalls]
  simp only [hstep, hrest]
  refine ⟨?_, ?_, ?_, ?_⟩
  · trivial
  · simp [List.replicate_succ]
  · trivial
  · intro r
    cases r <;> rfl

/-- An authenticator state with a refresh in flight (operation 0) and a
cached token that expired at instant 100 — the configuration a concurrent
burst after token expiry produces. -/
def inflightSt : AuthSt :=
  { current := some { token := "tok", expiresAt := 100 }
    state := AuthState.authenticating
    inflight := some 0
    nextOp := 1
    postCount := 1 }

/-- A fresh, never-authenticated state. -/
def freshSt : AuthSt :=
  { current := none
    state := AuthState.unauthenticated
    inflight := none
    nextOp := 0
    postCount := 0 }

/-- A quiescent authenticated state holding a still-valid token. -/
def quiescentSt : AuthSt :=
  { current := some { token := "tok", expiresAt := 100 }
    state := AuthState.authenticated
    inflight := none
    nextOp := 3
    postCount := 2 }

/-- A `getToken()` that finds no valid token and no in-flight refresh
starts one: AUTHENTICATING, a fresh operation remembered in the slot, one
more POST issued. -/
theorem getTokenSync_start (s : AuthSt) (now : Nat)
    (hv : isTokenValid s now = false) (hi : s.inflight = none) :
    getTokenSync s now =
      ({ s with
          state := AuthState.authenticating
          inflight := some s.nextOp
          nextOp := s.nextOp + 1
          postCount := s.postCount + 1 }, GetOutcome.awaiting s.nextOp) := by
  simp [getTokenSync, hv, hi]

/-- Witness for C1 at a fresh authenticator and a burst of three callers. -/
theorem singleFlight_getToken_witness :
    isTokenValid freshSt 0 = false ∧ freshSt.inflight = none ∧ 0 < 3
    ∧ (runCalls freshSt 0 3).1.postCount = freshSt.postCount + 1
    ∧ (runCalls freshSt 0 3).2 = List.replicate 3 (GetOutcome.awaiting freshSt.nextOp) :=
  ⟨rfl, rfl, by omega,
    (singleFlight_getToken freshSt 0 3 rfl rfl (by omega)).1,
    (singleFlight_getToken freshSt 0 3 rfl rfl (by omega)).2.1⟩

/-- C5, counterexample: in `inflightSt` a token was cached (it expired at
instant 100) and a refresh — operation 0 — is in flight, exactly the
configuration a concurrent burst after expiry produces.  There,
`invalidate()` followed by `getToken()` at instant 200 issues *no* new
authentication exchange (`postCount` is unchanged): the call joins the
in-flight operation 0.  So "always triggers a new authentication
exchange" fails when a refresh is in flight. -/
theorem invalidate_getToken_joins_cex :
    (getTokenSync (invalidate inflightSt) 200).1.postCount = inflightSt.postCount
    ∧ (getTokenSync (invalidate inflightSt) 200).2 = GetOutcome.awaiting 0
    ∧ inflightSt.current.isSome = true
    ∧ inflightSt.inflight = some 0 := by
  decide

/-- C5, amended: when no refresh is in flight, `invalidate()` followed by
`getToken()` always triggers a new authentication exchange regardless of
the discarded token's remaining nominal validity; and `invalidate()`
itself performs no network I/O — it only discards the cached token (and
downgrades the AUTHENTICATED flag), leaving `inflight`, `nextOp` and
`postCount` untouched. -/
theorem invalidate_forces_refresh (s : AuthSt) (now : Nat) (h : s.inflight = none) :
    (getTokenSync (invalidate s) now).1.postCount = s.postCount + 1
    ∧ (getTokenSync (invalidate s) now).2 = GetOutcome.awaiting s.nextOp
    ∧ (invalidate s).current = none
    ∧ (invalidate s).inflight = s.inflight
    ∧ (invalidate s).postCount = s.postCount
    ∧ (invalidate s).nextOp = s.nextOp := by
  have h2 := getTokenSync_start (invalidate s) now rfl h
  rw [h2]
  exact ⟨rfl, rfl, rfl, rfl, rfl, rfl⟩

/-- Witness for the amended C5 at the quiescent authenticated state with a
still-valid token. -/
theorem invalidate_forces_refresh_witness :
    quiescentSt.inflight = none
    ∧ (getTokenSync (invalidate quiescentSt) 0).1.postCount = quiescentSt.postCount + 1
    ∧ (getTokenSync (invalidate quiescentSt) 0).2 = GetOutcome.awaiting quiescentSt.nextOp
    ∧ isTokenValid quiescentSt 0 = true :=
  ⟨rfl, (invalidate_forces_refresh quiescentSt 0 rfl).1,
    (invalidate_forces_refresh quiescentSt 0 rfl).2.1, rfl⟩

/-- C10: `invalidate()` mutates only the cached token and the AUTHENTICATED
flag — `inflight`, `nextOp` and `postCount` are untouched — so a
`getToken()` issued while a refresh is in flight, even after an
intervening `invalidate()`, joins that same in-flight operation (whose
settlement delivers the token it mints) with no new authentication
exchange. -/
theorem invalidate_frame (s : AuthSt) :
    (invalidate s).inflight = s.inflight
    ∧ (invalidate s).nextOp = s.nextOp
    ∧ (invalidate s).postCount = s.postCount
    ∧ (invalidate s).current = none
    ∧ (invalidate s).state =
        (if s.state = AuthState.authenticated then AuthState.unauthenticated else s.state)
    ∧ ∀ op now, s.inflight = some op →
        getTokenSync (invalidate s) now = (invalidate s, GetOutcome.awaiting op) := by
  refine ⟨rfl, rfl, rfl, rfl, rfl, ?_⟩
  intro op now h
  have hi : (invalidate s).inflight = some op := h
  simp [getTokenSync, hi, show isTokenValid (invalidate s) now = false from rfl]

/-- Witness for C10 at `inflightSt`: the post-invalidate `getToken()` joins
operation 0 and the exchange counter stays put. -/
theorem invalidate_frame_witness :
    getTokenSync (invalidate inflightSt) 5 = (invalidate inflightSt, GetOutcome.awaiting 0)
    ∧ (invalidate inflightSt).postCount = inflightSt.postCount :=
  ⟨(invalidate_frame inflightSt).2.2.2.2.2 0 5 rfl, (invalidate_frame inflightSt).2.2.1⟩

/-! ### Theorems: object operations -/

/-- Settlement always clears the in-flight slot. -/
theorem settle_inflight (s : AuthSt) (r : RefreshResult) : (settle s r).inflight = none := by
  cases r <;> rfl

/-- Settlement issues no POST. -/
theorem settle_postCount (s : AuthSt) (r : RefreshResult) :
    (settle s r).postCount = s.postCount := by
  cases r <;> rfl

/-- A sequential `getToken()` leaves no refresh in flight behind when none
was in flight before it. -/
theorem seqGetToken_inflight_none (s : AuthSt) (now : Nat) (mint : Nat → String × Nat)
    (h : s.inflight = none) : (seqGetToken s now mint).1.inflight = none := by
  rw [seqGetToken]
  split
  · exact h
  · rw [h]
    exact settle_inflight _ _

/-- A sequential `getToken()` that finds no valid token and no in-flight
refresh performs exactly one authentication exchange and returns the token
minted for the fresh operation `s.nextOp`. -/
theorem seqGetToken_refresh (s : AuthSt) (now : Nat) (mint : Nat → String × Nat)
    (hv : isTokenValid s now = false) (hi : s.inflight = none) :
    (seqGetToken s now mint).1.postCount = s.postCount + 1
    ∧ (seqGetToken s now mint).2 = (mint s.nextOp).1 := by
  rw [seqGetToken]
  rw [if_neg (by simp [hv])]
  rw [hi]
  constructor
  · rw [settle_postCount, getTokenSync_start s now hv hi]
  · rfl

/-- C4: when the first terminal response of an authenticated exchange is
401 or 403, the adapter invalidates the cached token, performs one fresh
authentication exchange (`postCount` rises by one), retries the HTTP
exchange exactly once more with the freshly minted token, and returns the
second terminal response as-is — even a second 401/403 triggers no further
authorization retry and surfaces to the caller as the operation's error
(the AuthError of the spec's taxonomy). -/
theorem auth_retry_once (s : AuthSt) (now : Nat) (mint : Nat → String × Nat)
    (respond : Nat → String → Nat) (hi : s.inflight = none)
    (h401 : respond 0 (seqGetToken s now mint).2 = 401
      ∨ respond 0 (seqGetToken s now mint).2 = 403) :
    (authFetchWithRetry s now mint respond).2.2
        = [(seqGetToken s now mint).2,
           (seqGetToken (invalidate (seqGetToken s now mint).1) now mint).2]
    ∧ (authFetchWithRetry s now mint respond).2.1
        = respond 1 (seqGetToken (invalidate (seqGetToken s now mint).1) now mint).2
    ∧ (invalidate (seqGetToken s now mint).1).current = none
    ∧ (seqGetToken (invalidate (seqGetToken s now mint).1) now mint).1.postCount
        = (seqGetToken s now mint).1.postCount + 1
    ∧ (seqGetToken (invalidate (seqGetToken s now mint).1) now mint).2
        = (mint (seqGetToken s now mint).1.nextOp).1 := by
  have hifl : (invalidate (seqGetToken s now mint).1).inflight = none :=
    seqGetToken_inflight_none s now mint hi
  have hfresh := seqGetToken_refresh (invalidate (seqGetToken s now mint).1) now mint rfl hifl
  refine ⟨?_, ?_, rfl, hfresh.1, hfresh.2⟩ <;>
    · rw [authFetchWithRetry]
      simp only []
      rw [if_pos h401]

/-- Settlement oracle for the C4 witness: the first refresh mints "T1",
any later one "T2". -/
def witMint : Nat → String × Nat := fun i => (if i = 0 then "T1" else "T2", 1000)

/-- Response oracle for the C4 witness: the first exchange ends 401, the
retried exchange 200. -/
def witRespond : Nat → String → Nat := fun i _ => if i = 0 then 401 else 200

/-- Witness for C4: first exchange with "T1" ends 401; the adapter
re-authenticates and retries once with "T2", surfacing the 200. -/
theorem auth_retry_once_witness :
    (authFetchWithRetry freshSt 0 witMint witRespond).2.2 = ["T1", "T2"]
    ∧ (authFetchWithRetry freshSt 0 witMint witRespond).2.1 = 200
    ∧ (seqGetToken (invalidate (seqGetToken freshSt 0 witMint).1) 0 witMint).1.postCount
        = (seqGetToken freshSt 0 witMint).1.postCount + 1 :=
  ⟨((auth_retry_once freshSt 0 witMint witRespond rfl (Or.inl rfl)).1).trans (by decide),
    ((auth_retry_once freshSt 0 witMint witRespond rfl (Or.inl rfl)).2.1).trans (by decide),
    (auth_retry_once freshSt 0 witMint witRespond rfl (Or.inl rfl)).2.2.2.1⟩

/-- Later header segments override earlier ones (JavaScript spread /
assignment semantics): lookup prefers the second operand of an append. -/
theorem headerValue_append (l1 l2 : List (String × String)) (k : String) :
    headerValue (l1 ++ l2) k = (headerValue l2 k).or (headerValue l1 k) := by
  rw [headerValue, headerValue, headerValue, List.reverse_append, List.find?_append]
  cases l2.reverse.find? (fun p => p.1 = k) <;> simp

set_option maxRecDepth 4096 in
/-- The MD5 hex digest of the ASCII payload "hello". -/
theorem md5_hello :
    computeMD5Hex (asciiBytes "hello") = "5d41402abc4b2a76b9719d911017c592" := by
  decide

/-- C7: a `createFile` with a non-stream payload and no explicit integrity
tag (no `etagHex`, no caller-supplied `ETag` header) sends the MD5 hex
digest of the full payload as the `ETag` request header; on the payload
"hello" that digest is `5d41402abc4b2a76b9719d911017c592`. -/
theorem createFile_md5_etag (data : List Nat) (o : CreateFileOptions)
    (h1 : o.etagHex = none) (h2 : headerValue o.headers "ETag" = none) :
    headerValue (createFileHeaders data o) "ETag" = some (computeMD5Hex data)
    ∧ computeMD5Hex (asciiBytes "hello") = "5d41402abc4b2a76b9719d911017c592" := by
  refine ⟨?_, md5_hello⟩
  have h2' : o.headers.reverse.find? (fun p => p.1 = "ETag") = none := by
    rw [headerValue] at h2
    cases hfind : o.headers.reverse.find? (fun p => p.1 = "ETag") with
    | none => rfl
    | some v => rw [hfind] at h2; simp at h2
  have hlast : headerValue [("ETag", computeMD5Hex data)] "ETag"
      = some (computeMD5Hex data) := by
    simp [headerValue]
  simp only [createFileHeaders, h1, Option.getD_none]
  rw [headerValue_append, headerValue_append, headerValue_append]
  rcases o.contentType with _ | ct <;> rcases o.conditional with _ | cl <;>
    try rcases cl with u | tg
  all_goals simp [headerValue, h2, hlast, h2', Option.or]

/-- Witness for C7: default options on the payload "hello". -/
theorem createFile_md5_etag_witness :
    ({} : CreateFileOptions).etagHex = none
    ∧ headerValue ({} : CreateFileOptions).headers "ETag" = none
    ∧ headerValue (createFileHeaders (asciiBytes "hello") {}) "ETag"
        = some (computeMD5Hex (asciiBytes "hello"))
    ∧ computeMD5Hex (asciiBytes "hello") = "5d41402abc4b2a76b9719d911017c592" :=
  ⟨rfl, rfl, (createFile_md5_etag (asciiBytes "hello") {} rfl rfl).1,
    (createFile_md5_etag (asciiBytes "hello") {} rfl rfl).2⟩

/-- C8: a `createFile` with `conditional: true` sends the
`If-None-Match: *` precondition header (it is assigned last and overrides
any spread-in header); a terminal 412 — the object already exists —
yields the typed `preconditionFailed` failure carrying status 412 and is
never a success; a terminal 201 yields success with the metadata extracted
from the response headers. -/
theorem createFile_conditional_outcomes (data : List Nat) (o : CreateFileOptions)
    (hs : List (String × String)) :
    headerValue (createFileHeaders data { o with conditional := some (Sum.inl ()) })
        "If-None-Match" = some "*"
    ∧ createFileResult 412 hs = PutOutcome.preconditionFailed 412
    ∧ (∀ m, createFileResult 412 hs ≠ PutOutcome.success m)
    ∧ createFileResult 201 hs = PutOutcome.success (extractMeta hs) := by
  refine ⟨?_, by simp [createFileResult], ?_, by simp [createFileResult]⟩
  · simp only [createFileHeaders]
    rw [headerValue_append, headerValue_append, headerValue_append]
    simp [headerValue]
  · intro m
    simp [createFileResult]

/-- C9: `deleteFile` treats a terminal 404 as success when
`ignoreNotFound` is unset (the default) or explicitly `true`, and as the
generic not-found failure carrying 404 when it is explicitly `false`;
a terminal 204 is always success and a terminal 412 is always the typed
precondition failure. -/
theorem deleteFile_outcomes (o : DeleteFileOptions) :
    deleteFileResult { o with ignoreNotFound := none } 404 = DeleteOutcome.success
    ∧ deleteFileResult { o with ignoreNotFound := some true } 404 = DeleteOutcome.success
    ∧ deleteFileResult { o with ignoreNotFound := some false } 404
        = DeleteOutcome.unexpected 404
    ∧ deleteFileResult o 204 = DeleteOutcome.success
    ∧ deleteFileResult o 412 = DeleteOutcome.preconditionFailed 412 := by
  refine ⟨by simp [deleteFileResult], by simp [deleteFileResult],
    by simp [deleteFileResult], by simp [deleteFileResult], by simp [deleteFileResult]⟩
